import Mathlib

/-!
# Verification of the imgutil container-image mutation engine

A shallow embedding of the `imgutil` core (`src/cnb_image.go`, `src/layout/new.go`,
and the layout `SaveAs` implementation) together with proofs about its claims.

Modelling conventions:
* Go strings are Lean `String`s; `time.Time` values are modelled as `Int` (an
  abstract instant); layers are identified by their diff-ID string (the spec's
  data model declares two layers with equal diff ID identical).
* A Go `v1.Image` interface value is modelled by `V1Image` (layer diff-ID list,
  optional config file, optional manifest); a nil interface value is modelled by
  `none` at the uses where Go can assign nil (`Option V1Image`).
* Fallible Go functions return `Except String` carrying the error message;
  methods that mutate their `CNBImageCore` receiver return `OpResult`, the pair
  of the receiver state after the call and the returned error, mirroring Go's
  receiver-mutation semantics (so partial mutation before a failure is visible).
* `go-containerregistry`'s `mutate` package is an external collaborator (the
  spec's out-of-scope "underlying image-object abstraction"); its operations
  are modelled from their documented contracts, marked below.
-/

set_option autoImplicit false

namespace Imgutil

/-- A history entry of a config file (`v1.History`): build provenance paired
positionally with a layer. `created` models the `time.Time` stamp. -/
structure History where
  author : String
  created : Int
  createdBy : String
  comment : String
  emptyLayer : Bool
  deriving DecidableEq, Repr, Inhabited

/-- The inner container config (`v1.Config`): the fields the claims touch. -/
structure Config where
  env : List String
  labels : List (String × String)
  entrypoint : List String
  cmd : List String
  workingDir : String
  deriving DecidableEq, Repr, Inhabited

/-- The config document (`v1.ConfigFile`). `diffIDs` is `RootFS.DiffIDs`. -/
structure ConfigFile where
  architecture : String
  os : String
  osVersion : String
  variant : String
  osFeatures : List String
  created : Int
  container : String
  config : Config
  history : List History
  diffIDs : List String
  deriving DecidableEq, Repr, Inhabited

/-- A platform descriptor (`v1.Platform`). -/
structure Platform where
  os : String
  architecture : String
  variant : String
  osVersion : String
  osFeatures : List String
  features : List String
  deriving DecidableEq, Repr, Inhabited

/-- The manifest's config descriptor (`v1.Descriptor`), reduced to the platform
pointer the claims are about. -/
structure Descriptor where
  platform : Option Platform
  deriving DecidableEq, Repr, Inhabited

/-- The manifest document (`v1.Manifest`), reduced to its config descriptor. -/
structure Manifest where
  config : Descriptor
  deriving DecidableEq, Repr, Inhabited

/-- A `v1.Image` value: ordered layers (by diff ID), config file, manifest.
`configFile`/`manifest` are `none` when the underlying document is absent
(`getConfigFile`/`getManifest` then fail). -/
structure V1Image where
  layers : List String
  configFile : Option ConfigFile
  manifest : Option Manifest
  deriving DecidableEq, Repr, Inhabited

/-- Modelled from the spec: imgutil's `NormalizedDateTime` sentinel build
timestamp (repository code not under `src/`); the spec calls it the
"zero-value/sentinel timestamp" of the empty-history marker. -/
def NormalizedDateTime : Int := 315532801

/-- `var emptyHistory = v1.History{Created: v1.Time{Time: NormalizedDateTime}}`
(src/cnb_image.go line 384). All other fields are the Go zero value. -/
def emptyHistory : History :=
  { author := "", created := NormalizedDateTime, createdBy := "", comment := ""
    emptyLayer := false }

/-- The error message of a Go nil-interface method call (a runtime panic),
used where the code can reach a method call on a nil `v1.Image`. -/
def nilImagePanic : String :=
  "panic: runtime error: invalid memory address or nil pointer dereference"

/-- `getConfigFile` (src/cnb_image.go lines 606–615): fails when the config
document is absent. A nil image value panics at the method call. -/
def getConfigFile (image : Option V1Image) : Except String ConfigFile :=
  match image with
  | none => .error nilImagePanic
  | some img =>
    match img.configFile with
    | none => .error "missing config file"
    | some configFile => .ok configFile

/-- `getManifest` (src/cnb_image.go lines 617–626). -/
def getManifest (image : Option V1Image) : Except String Manifest :=
  match image with
  | none => .error nilImagePanic
  | some img =>
    match img.manifest with
    | none => .error "missing manifest"
    | some manifest => .ok manifest

/-- Modelled from the spec: imgutil's `NormalizedHistory` (repository code not
under `src/`), §4.2 of the spec: reconcile the history list against the layer
count `nLayers` — pad at the front with empty markers when shorter, keep the
most recent `nLayers` entries when longer. -/
def NormalizedHistory (history : List History) (nLayers : Nat) : List History :=
  if history.length < nLayers then
    List.replicate (nLayers - history.length) emptyHistory ++ history
  else
    history.drop (history.length - nLayers)

/-- Modelled from the spec: imgutil's `MutateManifest` (repository code not
under `src/`): apply the caller's manifest transformation and produce an image
carrying the updated manifest, failing when the manifest is absent. -/
def MutateManifest (img : V1Image) (withFunc : Manifest → Manifest) :
    Except String V1Image :=
  match img.manifest with
  | none => .error "missing manifest"
  | some mfest => .ok { img with manifest := some (withFunc mfest) }

/-- Model of the external collaborator `mutate.ConfigFile` from
go-containerregistry: return the image carrying the given config document. -/
def mutateConfigFileExt (img : V1Image) (configFile : ConfigFile) : V1Image :=
  { img with configFile := some configFile }

/-- Model of the external collaborator `mutate.Append` for a single addendum:
append the layer, its diff ID and its history entry to the image (the
addendum's media type and the manifest's layer descriptors are not modelled —
no claim observes them). Fails when the image has no config document to extend. -/
def mutateAppend (img : V1Image) (layer : String) (history : History) :
    Except String V1Image :=
  match img.configFile with
  | none => .error "missing config file"
  | some c =>
    .ok { img with
          layers := img.layers ++ [layer]
          configFile := some { c with
                               history := c.history ++ [history]
                               diffIDs := c.diffIDs ++ [layer] } }

/-- `CNBImageCore` (src/cnb_image.go lines 22–32): the working image plus the
session options the claims depend on. The media-type preferences and the
features/urls/annotations overrides are not modelled — no claim observes them.
The wrapped image is `Option` because Go's `i.Image, err = ...` multiple
assignments store a nil interface value on failure. -/
structure CNBImageCore where
  image : Option V1Image
  createdAt : Int
  preserveHistory : Bool
  previousImage : Option V1Image
  deriving DecidableEq, Repr, Inhabited

/-- The observable outcome of a Go method on the `*CNBImageCore` receiver: the
receiver state after the call and the returned error (`none` = nil error). -/
structure OpResult where
  state : CNBImageCore
  err : Option String
  deriving DecidableEq, Repr, Inhabited

/-- The manifest transformation inlined in `MutateConfigFile`
(src/cnb_image.go lines 564–574): mirror OS/architecture/variant/OS-version/
OS-features from the config into the manifest's platform descriptor, creating
the descriptor (as the Go zero value) if absent. -/
def mirrorPlatform (configFile : ConfigFile) (mfest : Manifest) : Manifest :=
  let p : Platform :=
    match mfest.config.platform with
    | none => { os := "", architecture := "", variant := "", osVersion := ""
                osFeatures := [], features := [] }
    | some p => p
  let p' : Platform :=
    { p with os := configFile.os
             architecture := configFile.architecture
             variant := configFile.variant
             osVersion := configFile.osVersion
             osFeatures := configFile.osFeatures }
  { mfest with config := { mfest.config with platform := some p' } }

/-- `CNBImageCore.MutateConfigFile` (src/cnb_image.go lines 553–576): load the
config (failing if absent), apply `withFunc`, write it back, then mirror the
platform fields into the manifest through `MutateManifest`. The Go assignment
`i.Image, err = MutateManifest(...)` stores nil into the wrapped image when
`MutateManifest` fails. -/
def MutateConfigFile (i : CNBImageCore) (withFunc : ConfigFile → ConfigFile) :
    OpResult :=
  match i.image with
  | none => { state := i, err := some nilImagePanic }
  | some img =>
    match img.configFile with
    | none => { state := i, err := some "missing config file" }
    | some configFile0 =>
      let configFile := withFunc configFile0
      let img := mutateConfigFileExt img configFile
      match MutateManifest img (mirrorPlatform configFile) with
      | .error e => { state := { i with image := none }, err := some e }
      | .ok img' => { state := { i with image := some img' }, err := none }

/-! ### Environment variables

Go's `strings.Split(s, "=")` is modelled over the string's character list
(Lean's `String.splitOn` is an equivalent library routine, but the explicit
recursion below matches Go's split-on-every-separator semantics and keeps the
definition executable by the kernel). -/

/-- Split a character list at every `'='`, Go `strings.Split(s, "=")` style:
the result is never empty, and an input without `'='` yields one part. -/
def splitEqChars : List Char → List (List Char)
  | [] => [[]]
  | c :: rest =>
    if c = '=' then [] :: splitEqChars rest
    else
      match splitEqChars rest with
      | [] => [[c]]
      | part :: parts => (c :: part) :: parts

/-- `strings.Split(s, "=")` on a Go string. -/
def splitOnEq (s : String) : List String :=
  (splitEqChars s.data).map String.mk

/-- `strings.ToUpper` restricted to ASCII (the behavior on the strings the
code compares; modelled character-wise). -/
def toUpperStr (s : String) : String :=
  String.mk (s.data.map Char.toUpper)

/-- The key part of a `key=value` entry: `parts[0]` of the Go split. -/
def envKey (e : String) : String :=
  (splitOnEq e).headD ""

/-- The key comparison of `SetEnv` (src/cnb_image.go lines 308–314):
case-insensitive (via `strings.ToUpper`) when `ignoreCase` is set. -/
def keysMatch (ignoreCase : Bool) (foundKey searchKey : String) : Bool :=
  if ignoreCase then decide (toUpperStr foundKey = toUpperStr searchKey)
  else decide (foundKey = searchKey)

/-- The loop of `SetEnv` (src/cnb_image.go lines 303–319): replace the first
entry whose key part matches (the `len(parts) < 1` guard is unreachable since
the split is never empty), otherwise append `key=val`. -/
def setEnvList (ignoreCase : Bool) (key val : String) : List String → List String
  | [] => [key ++ "=" ++ val]
  | e :: rest =>
    if keysMatch ignoreCase (envKey e) key then (key ++ "=" ++ val) :: rest
    else e :: setEnvList ignoreCase key val rest

/-- `CNBImageCore.SetEnv` (src/cnb_image.go lines 300–321). -/
def SetEnv (i : CNBImageCore) (key val : String) : OpResult :=
  MutateConfigFile i fun c =>
    { c with config := { c.config with
        env := setEnvList (c.os == "windows") key val c.config.env } }

/-- The loop of `CNBImageCore.Env` (src/cnb_image.go lines 70–76): only
entries splitting into exactly two parts are considered; the key comparison is
plain string equality. -/
def envLookup (key : String) : List String → String
  | [] => ""
  | e :: rest =>
    match splitOnEq e with
    | [k, v] => if k = key then v else envLookup key rest
    | _ => envLookup key rest

/-- `CNBImageCore.Env` (src/cnb_image.go lines 65–77). -/
def Env (i : CNBImageCore) (key : String) : Except String String :=
  match getConfigFile i.image with
  | .error e => .error e
  | .ok configFile => .ok (envLookup key configFile.config.env)

/-! ### Layer append and reuse -/

/-- `CNBImageCore.AddLayerWithHistory` (src/cnb_image.go lines 402–425):
normalize the existing history to the diff-ID count, substitute the empty
marker when history preservation is off, stamp the creation time
(unconditionally), and append through `mutate.Append`. The layer argument is
its diff ID. On `mutate.Append` failure the Go multiple assignment stores nil
into the wrapped image. -/
def AddLayerWithHistory (i : CNBImageCore) (layer : String) (history : History) :
    OpResult :=
  let r := MutateConfigFile i fun c =>
    { c with history := NormalizedHistory c.history c.diffIDs.length }
  match r.err with
  | some e => { state := r.state, err := some e }
  | none =>
    let history := if !i.preserveHistory then emptyHistory else history
    let history := { history with created := i.createdAt }
    match r.state.image with
    | none => { state := r.state, err := some nilImagePanic }
    | some img =>
      match mutateAppend img layer history with
      | .error e => { state := { r.state with image := none }, err := some e }
      | .ok img' => { state := { r.state with image := some img' }, err := none }

/-- The loop of `getLayerIndex` (src/cnb_image.go lines 506–510): first index
of the diff ID in the config's `RootFS.DiffIDs`. -/
def findDiffIDIndex (layerHash : String) : List String → Option Nat
  | [] => none
  | d :: rest =>
    if layerHash = d then some 0
    else (findDiffIDIndex layerHash rest).map (· + 1)

/-- `getLayerIndex` (src/cnb_image.go lines 497–512). `v1.NewHash` is modelled
as the identity on well-formed diff-ID strings (`hash.String()` round-trips);
its parse failure is not modelled — no claim exercises malformed digests. -/
def getLayerIndex (forDiffID : String) (fromImage : V1Image) :
    Except String Nat :=
  match getConfigFile (some fromImage) with
  | .error e => .error ("failed to get config file: " ++ e)
  | .ok configFile =>
    match findDiffIDIndex forDiffID configFile.diffIDs with
    | some idx => .ok idx
    | none => .error ("failed to find diffID " ++ forDiffID ++ " in config file")

/-- `getHistory` (src/cnb_image.go lines 514–524). Note: the bounds check is
made against the *normalized* history, but the returned entry is read from the
*raw* `configFile.History` list (`return configFile.History[forIndex]`); a raw
list shorter than the index is a Go index-out-of-range panic. -/
def getHistory (forIndex : Nat) (fromImage : V1Image) : Except String History :=
  match getConfigFile (some fromImage) with
  | .error e => .error e
  | .ok configFile =>
    let history := NormalizedHistory configFile.history configFile.diffIDs.length
    if history.length ≤ forIndex then
      .error "wanted history at index out of range of history length"
    else
      match configFile.history.get? forIndex with
      | some h => .ok h
      | none => .error "panic: runtime error: index out of range"

/-- Model of the external collaborator `v1.Image.LayerByDiffID`: look the
layer up by its diff ID among the image's layers. -/
def layerByDiffID (img : V1Image) (layerHash : String) : Except String String :=
  if layerHash ∈ img.layers then .ok layerHash
  else .error ("could not find layer with diff id " ++ layerHash)

/-- `CNBImageCore.ReuseLayerWithHistory` (src/cnb_image.go lines 526–549):
fetch the layer from the previous image, re-stamp the entry's creation time
when history preservation is on, substitute the empty marker otherwise, and
append. Accessing a nil previous image would panic. -/
def ReuseLayerWithHistory (i : CNBImageCore) (diffID : String)
    (history : History) : OpResult :=
  match i.previousImage with
  | none => { state := i, err := some nilImagePanic }
  | some prev =>
    match layerByDiffID prev diffID with
    | .error e => { state := i, err := some ("failed to get layer by diffID: " ++ e) }
    | .ok layer =>
      let history :=
        if i.preserveHistory then { history with created := i.createdAt }
        else emptyHistory
      match i.image with
      | none => { state := i, err := some nilImagePanic }
      | some img =>
        match mutateAppend img layer history with
        | .error e => { state := { i with image := none }, err := some e }
        | .ok img' => { state := { i with image := some img' }, err := none }

/-- `CNBImageCore.ReuseLayer` (src/cnb_image.go lines 482–495). -/
def ReuseLayer (i : CNBImageCore) (diffID : String) : OpResult :=
  match i.previousImage with
  | none =>
    { state := i
      err := some "failed to reuse layer because no previous image was provided" }
  | some prev =>
    match getLayerIndex diffID prev with
    | .error e =>
      { state := i
        err := some ("failed to get index for previous image layer: " ++ e) }
    | .ok idx =>
      match getHistory idx prev with
      | .error e =>
        { state := i
          err := some ("failed to get history for previous image layer: " ++ e) }
      | .ok previousHistory => ReuseLayerWithHistory i diffID previousHistory

/-! ### Rebase -/

/-- `v1ImageFacade.Layers` (src/cnb_image.go lines 459–474): the prefix of the
wrapped image's layers up to and including the first occurrence of
`topLayerDiffID`, failing when that diff ID never appears. -/
def facadeLayers (all : List String) (topLayerDiffID : String) :
    Except String (List String) :=
  match all with
  | [] => .error "could not find base layer in image"
  | l :: rest =>
    if l = topLayerDiffID then .ok [l]
    else
      match facadeLayers rest topLayerDiffID with
      | .error e => .error e
      | .ok p => .ok (l :: p)

/-- Model of the external collaborator `mutate.Rebase` from
go-containerregistry, at the level of its documented contract: verify that the
old base's layers are a prefix of the original's (by content digest — equal
diff IDs identify equal content in this model), then stitch together an image
with the new base's layers followed by the original's remaining layers, the
original's config carrying the new base's architecture/OS/OS-version, and the
new base's history followed by the original's remaining history. The old base
here is the `v1ImageFacade` over the original image, so its layer list is
`facadeLayers` and its config document is the original's. The stitched image
carries a fresh manifest (its platform descriptor unset). -/
def mutateRebase (orig : V1Image) (topLayerDiffID : String) (newBase : V1Image) :
    Except String V1Image :=
  match facadeLayers orig.layers topLayerDiffID with
  | .error e => .error e
  | .ok oldBaseLayers =>
    if oldBaseLayers.length > orig.layers.length then
      .error "image is not based on old base (too few layers)"
    else if oldBaseLayers ≠ orig.layers.take oldBaseLayers.length then
      .error "image is not based on old base"
    else
      match orig.configFile, newBase.configFile with
      | none, _ => .error "missing config file"
      | _, none => .error "missing config file"
      | some origConfig, some newConfig =>
        let suffixLayers := orig.layers.drop oldBaseLayers.length
        .ok { layers := newBase.layers ++ suffixLayers
              configFile := some { origConfig with
                architecture := newConfig.architecture
                os := newConfig.os
                osVersion := newConfig.osVersion
                history := newConfig.history ++
                  origConfig.history.drop oldBaseLayers.length
                diffIDs := newBase.layers ++ suffixLayers }
              manifest := some { config := { platform := none } } }

/-- `CNBImageCore.Rebase` (src/cnb_image.go lines 427–445): splice through
`mutate.Rebase` (the Go multiple assignment stores nil into the wrapped image
when it fails), then overwrite architecture/OS/OS-version from the new base's
config document through `MutateConfigFile`. `withNewBase` is the new base's
underlying `v1.Image`. -/
def Rebase (i : CNBImageCore) (baseTopLayerDiffID : String)
    (withNewBase : V1Image) : OpResult :=
  match i.image with
  | none => { state := i, err := some nilImagePanic }
  | some orig =>
    match mutateRebase orig baseTopLayerDiffID withNewBase with
    | .error e => { state := { i with image := none }, err := some e }
    | .ok rebased =>
      let i := { i with image := some rebased }
      match getConfigFile (some withNewBase) with
      | .error e => { state := i, err := some e }
      | .ok newBaseConfigFile =>
        MutateConfigFile i fun c =>
          { c with architecture := newBaseConfigFile.architecture
                   os := newBaseConfigFile.os
                   osVersion := newBaseConfigFile.osVersion }

/-- The cut point of the facade: the index of the first occurrence of the top
layer's diff ID in the layer list (used to state which layers sit strictly
after it). -/
def idxOfTop (topID : String) : List String → Nat
  | [] => 0
  | l :: rest => if l = topID then 0 else idxOfTop topID rest + 1

/-- Observation helper: the last history entry of the wrapped image's config
document, when all of them are present. -/
def lastHistory (i : CNBImageCore) : Option History :=
  match i.image with
  | none => none
  | some img =>
    match img.configFile with
    | none => none
    | some c => c.history.getLast?

/-- Observation helper: the environment list of the wrapped image's config
document (empty when a document is absent). -/
def currentEnv (i : CNBImageCore) : List String :=
  match i.image with
  | none => []
  | some img =>
    match img.configFile with
    | none => []
    | some c => c.config.env

end Imgutil

namespace Layout

open Imgutil

/-- An entry of an image index's manifest list (`v1.Descriptor` as consumed by
`imageFromIndex`): its digest and its platform descriptor. -/
structure IndexDescriptor where
  digest : String
  platform : Platform
  deriving DecidableEq, Repr, Inhabited

/-- The platform tuple requested of the index (`imgutil.Platform`,
src/unnamed/part_001 lines 104–108). -/
structure PlatformRequest where
  architecture : String
  os : String
  osVersion : String
  deriving DecidableEq, Repr, Inhabited

/-- `imageFromIndex` (src/layout/new.go lines 100–125), returning the digest
handed to `index.Image` (the index lookup itself is the external collaborator).
An empty manifest list fails; a single manifest is selected without consulting
the platform; with several manifests the selection loop runs, but the function
then falls through to the `failed to find manifest matching platform` return
regardless of whether the loop found a match (the `%v`-rendered platform in
the Go message is abbreviated here). -/
def imageFromIndex (manifestList : List IndexDescriptor)
    (platform : PlatformRequest) : Except String String :=
  match manifestList with
  | [] => .error "failed to find manifest at index"
  | [m] => .ok m.digest
  | _ =>
    let _manifest := manifestList.find? fun m =>
      m.platform.os == platform.os &&
        m.platform.architecture == platform.architecture
    .error "failed to find manifest matching platform"

/-! ### SaveAs (the layout implementation, src/unnamed/part_002)

The per-destination loop and the aggregate error are modelled; the
config-stamping and manifest-mutation preamble of `SaveAs` (lines 16–50),
which precedes the loop and either succeeds or aborts the whole call before
any destination is attempted, is not modelled — no claim observes it. The
on-disk writes are the external destination-writer collaborator, supplied as
the two functions of `SaveEnv`. -/

/-- `imgutil.SaveDiagnostic` (src/unnamed/part_001 lines 116–119). -/
structure SaveDiagnostic where
  imageName : String
  cause : String
  deriving DecidableEq, Repr, Inhabited

/-- `SaveError.Error()` (src/unnamed/part_001 lines 125–131). -/
def saveErrorString (diags : List SaveDiagnostic) : String :=
  "failed to write image to the following tags: " ++
    String.intercalate ","
      (diags.map fun d => "[" ++ d.imageName ++ ": " ++ d.cause ++ "]")

/-- The destination-writer collaborator: `initEmptyIndexAt` and
`layoutPath.AppendImage` per destination path. -/
structure SaveEnv where
  initIndex : String → Except String Unit
  appendImage : String → Except String Unit

/-- The observable outcome of `SaveAs`: the destinations whose `AppendImage`
succeeded (materialized), the recorded diagnostics, and the returned error. -/
structure SaveOutcome where
  written : List String
  diagnostics : List SaveDiagnostic
  result : Option String
  deriving DecidableEq, Repr, Inhabited

/-- The destination loop of `Image.SaveAs` (src/unnamed/part_002 lines
52–72): an `initEmptyIndexAt` failure returns that error immediately (the
diagnostics collected so far are dropped and the remaining destinations are
not attempted); an `AppendImage` failure records a diagnostic carrying
`i.Name()` and continues; at the end, any diagnostics become a `SaveError`. -/
def saveLoop (imageName : String) (env : SaveEnv) :
    List String → List String → List SaveDiagnostic → SaveOutcome
  | [], written, diagnostics =>
    { written := written
      diagnostics := diagnostics
      result :=
        if diagnostics.length > 0 then some (saveErrorString diagnostics)
        else none }
  | path :: rest, written, diagnostics =>
    match env.initIndex path with
    | .error e => { written := written, diagnostics := diagnostics, result := some e }
    | .ok _ =>
      match env.appendImage path with
      | .error cause =>
        saveLoop imageName env rest written
          (diagnostics ++ [{ imageName := imageName, cause := cause }])
      | .ok _ => saveLoop imageName env rest (written ++ [path]) diagnostics

/-- `Image.SaveAs` (src/unnamed/part_002 lines 15–73), destination loop:
`pathsToSave = append([]string{name}, additionalNames...)`; `imageName` is the
image's `Name()`. -/
def SaveAs (imageName : String) (env : SaveEnv) (name : String)
    (additionalNames : List String) : SaveOutcome :=
  saveLoop imageName env (name :: additionalNames) [] []

/-- The `AppendImage` outcome of a destination as a Bool (successful writes). -/
def appendOk (env : SaveEnv) (p : String) : Bool :=
  match env.appendImage p with
  | .ok _ => true
  | .error _ => false

/-- The diagnostic a destination contributes, when its `AppendImage` fails. -/
def appendDiag (imageName : String) (env : SaveEnv) (p : String) :
    Option SaveDiagnostic :=
  match env.appendImage p with
  | .error cause => some { imageName := imageName, cause := cause }
  | .ok _ => none

end Layout

/-! ### Concrete inputs used by the witnesses and counterexamples -/

namespace Fixtures

open Imgutil Layout

/-- A well-formed config document with no layers yet. -/
def baseCfg : ConfigFile :=
  { architecture := "amd64", os := "linux", osVersion := "10.0", variant := "v8"
    osFeatures := ["win32k"], created := 0, container := ""
    config := { env := [], labels := [], entrypoint := [], cmd := []
                workingDir := "" }
    history := [], diffIDs := [] }

/-- A manifest without a platform descriptor. -/
def baseMfst : Manifest := { config := { platform := none } }

/-- An empty working image carrying `baseCfg` and `baseMfst`. -/
def baseImg : V1Image := { layers := [], configFile := some baseCfg, manifest := some baseMfst }

/-- A session without a previous image (history preservation on). -/
def c8core : CNBImageCore :=
  { image := some baseImg, createdAt := 42, preserveHistory := true
    previousImage := none }

/-- A working image whose config document is absent. -/
def noCfgImg : V1Image := { layers := [], configFile := none, manifest := some baseMfst }

/-- A session whose working image has no config document. -/
def noCfgCore : CNBImageCore :=
  { image := some noCfgImg, createdAt := 42, preserveHistory := true
    previousImage := none }

/-- A caller-supplied history entry. -/
def callerHist : History :=
  { author := "me", created := 7, createdBy := "caller-step", comment := "c"
    emptyLayer := false }

/-- A session with history preservation disabled and a build timestamp that
differs from the normalized sentinel. -/
def c3core : CNBImageCore :=
  { image := some baseImg, createdAt := 42, preserveHistory := false
    previousImage := none }

/-- A history entry at raw index 0 of the previous image of `c4core`. -/
def oldStep : History :=
  { author := "", created := 1, createdBy := "old-step", comment := ""
    emptyLayer := false }

/-- A history entry at raw index 1 of the previous image of `c4core`. -/
def newStep : History :=
  { author := "", created := 2, createdBy := "new-step", comment := ""
    emptyLayer := false }

/-- The config document of `c4prev`: one layer, but two history entries. -/
def c4prevCfg : ConfigFile :=
  { baseCfg with diffIDs := ["sha256:a"], history := [oldStep, newStep] }

/-- A previous image whose raw history is longer than its diff-ID list. -/
def c4prev : V1Image :=
  { layers := ["sha256:a"], configFile := some c4prevCfg, manifest := some baseMfst }

/-- A session reusing layers from `c4prev`, history preservation on. -/
def c4core : CNBImageCore :=
  { image := some baseImg, createdAt := 42, preserveHistory := true
    previousImage := some c4prev }

/-- The config document of `c4prevShort`: two layers, one history entry. -/
def c4prevShortCfg : ConfigFile :=
  { baseCfg with diffIDs := ["sha256:a", "sha256:b"], history := [oldStep] }

/-- A previous image whose raw history is shorter than its diff-ID list. -/
def c4prevShort : V1Image :=
  { layers := ["sha256:a", "sha256:b"], configFile := some c4prevShortCfg
    manifest := some baseMfst }

/-- A session reusing layers from `c4prevShort`. -/
def c4coreShort : CNBImageCore :=
  { image := some baseImg, createdAt := 42, preserveHistory := true
    previousImage := some c4prevShort }

/-- A working image with one layer, for the rebase claims. -/
def c6img : V1Image :=
  { layers := ["sha256:a"]
    configFile := some { baseCfg with diffIDs := ["sha256:a"] }
    manifest := some baseMfst }

/-- A session wrapping `c6img`. -/
def c6core : CNBImageCore :=
  { image := some c6img, createdAt := 42, preserveHistory := true
    previousImage := none }

/-- A new base image with its own config values. -/
def newBaseImg : V1Image :=
  { layers := ["sha256:x", "sha256:y"]
    configFile := some { baseCfg with
      architecture := "arm64", os := "linux-nb", osVersion := "99"
      variant := "nb-variant", diffIDs := ["sha256:x", "sha256:y"]
      history := [] }
    manifest := some baseMfst }

/-- A working image with three layers, for the rebase success witness. -/
def c1img : V1Image :=
  { layers := ["sha256:a", "sha256:b", "sha256:c"]
    configFile := some { baseCfg with
      diffIDs := ["sha256:a", "sha256:b", "sha256:c"]
      history := [oldStep, oldStep, oldStep] }
    manifest := some baseMfst }

/-- A session wrapping `c1img`. -/
def c1core : CNBImageCore :=
  { image := some c1img, createdAt := 42, preserveHistory := true
    previousImage := none }

/-- A config whose environment already holds two entries under the key `K`. -/
def c7cfg : ConfigFile :=
  { baseCfg with config := { baseCfg.config with env := ["K=a", "K=b"] } }

/-- A session whose working image starts with a duplicated environment key. -/
def c7core : CNBImageCore :=
  { image := some { layers := [], configFile := some c7cfg, manifest := some baseMfst }
    createdAt := 42, preserveHistory := true, previousImage := none }

/-- A config with a single environment entry under the key `K`. -/
def c7cleanCfg : ConfigFile :=
  { baseCfg with config := { baseCfg.config with env := ["other=1", "K=a"] } }

/-- A session whose working image has a unique environment entry for `K`. -/
def c7cleanCore : CNBImageCore :=
  { image := some { layers := [], configFile := some c7cleanCfg, manifest := some baseMfst }
    createdAt := 42, preserveHistory := true, previousImage := none }

/-- A Windows config with a lower-case environment key. -/
def c9cfg : ConfigFile :=
  { baseCfg with
    os := "windows"
    config := { baseCfg.config with env := ["foo=bar"] } }

/-- A session whose working image claims OS `windows`. -/
def c9core : CNBImageCore :=
  { image := some { layers := [], configFile := some c9cfg, manifest := some baseMfst }
    createdAt := 42, preserveHistory := true, previousImage := none }

/-- An index entry whose platform does not match `preq`. -/
def d1 : IndexDescriptor :=
  { digest := "sha256:m1"
    platform := { os := "linux", architecture := "arm64", variant := ""
                  osVersion := "", osFeatures := [], features := [] } }

/-- An index entry whose platform matches `preq` exactly. -/
def d2 : IndexDescriptor :=
  { digest := "sha256:m2"
    platform := { os := "linux", architecture := "amd64", variant := ""
                  osVersion := "", osFeatures := [], features := [] } }

/-- The requested platform. -/
def preq : PlatformRequest := { architecture := "amd64", os := "linux", osVersion := "" }

/-- A writer environment where only destination `b` fails to append. -/
def c2env : SaveEnv :=
  { initIndex := fun _ => .ok ()
    appendImage := fun p => if p = "b" then .error "boom" else .ok () }

/-- A writer environment where initializing destination `b` fails. -/
def c2envInit : SaveEnv :=
  { initIndex := fun p => if p = "b" then .error "init boom" else .ok ()
    appendImage := fun _ => .ok () }

end Fixtures

/-! ## Helper lemmas -/

namespace Imgutil

/-- On an image whose config document and manifest are both present,
`MutateConfigFile` succeeds and produces exactly the transformed config
together with the mirrored manifest. -/
theorem mutateConfigFile_ok (i : CNBImageCore) (img : V1Image) (c : ConfigFile)
    (m : Manifest) (f : ConfigFile → ConfigFile)
    (hi : i.image = some img) (hc : img.configFile = some c)
    (hm : img.manifest = some m) :
    MutateConfigFile i f =
      { state := { i with image := some { img with
          configFile := some (f c)
          manifest := some (mirrorPlatform (f c) m) } }
        err := none } := by
  simp only [MutateConfigFile, hi, mutateConfigFileExt, MutateManifest]
  simp [hc, hm]

/-- Normalizing a history list to a layer count yields that exact length. -/
theorem normalizedHistory_length (history : List History) (n : Nat) :
    (NormalizedHistory history n).length = n := by
  unfold NormalizedHistory
  split <;> simp <;> omega

/-- The facade's layer listing fails exactly as the source says when the top
diff ID never occurs. -/
theorem facadeLayers_not_mem (ls : List String) (topID : String)
    (h : topID ∉ ls) :
    facadeLayers ls topID = .error "could not find base layer in image" := by
  induction ls with
  | nil => rfl
  | cons l rest ih =>
    simp only [List.mem_cons, not_or] at h
    have hne : ¬ l = topID := fun hl => h.1 hl.symm
    simp only [facadeLayers, if_neg hne, ih h.2]

/-- The facade's layer listing returns the prefix through the first
occurrence of the top diff ID. -/
theorem facadeLayers_mem (ls : List String) (topID : String) (h : topID ∈ ls) :
    facadeLayers ls topID = .ok (ls.take (idxOfTop topID ls + 1)) := by
  induction ls with
  | nil => simp at h
  | cons l rest ih =>
    by_cases hl : l = topID
    · simp [facadeLayers, idxOfTop, hl]
    · have hr : topID ∈ rest := by
        rcases List.mem_cons.mp h with h' | h'
        · exact absurd h'.symm hl
        · exact h'
      simp [facadeLayers, idxOfTop, hl, ih hr]

/-- The first occurrence's index lies inside the list. -/
theorem idxOfTop_lt_length (ls : List String) (topID : String)
    (h : topID ∈ ls) : idxOfTop topID ls < ls.length := by
  induction ls with
  | nil => simp at h
  | cons l rest ih =>
    by_cases hl : l = topID
    · simp [idxOfTop, hl]
    · have hr : topID ∈ rest := by
        rcases List.mem_cons.mp h with h' | h'
        · exact absurd h'.symm hl
        · exact h'
      simp only [idxOfTop, if_neg hl, List.length_cons]
      exact Nat.succ_lt_succ (ih hr)

/-- `envLookup` skips every entry that does not split into exactly the
searched key and some value. -/
theorem envLookup_skip (key : String) (l₁ rest : List String)
    (h : ∀ e ∈ l₁, ∀ v, splitOnEq e = [key, v] → False) :
    envLookup key (l₁ ++ rest) = envLookup key rest := by
  induction l₁ with
  | nil => rfl
  | cons e l ih =>
    have he := h e (List.mem_cons_self e l)
    have hl : ∀ e' ∈ l, ∀ v, splitOnEq e' = [key, v] → False :=
      fun e' he' => h e' (List.mem_cons_of_mem e he')
    simp only [List.cons_append, envLookup]
    cases hsp : splitOnEq e with
    | nil => exact ih hl
    | cons k parts =>
      cases parts with
      | nil => exact ih hl
      | cons v parts2 =>
        cases parts2 with
        | nil =>
          by_cases hk : k = key
          · exact absurd (hk ▸ hsp) (fun hh => he v hh)
          · simp only [if_neg hk]
            exact ih hl
        | cons _ _ => exact ih hl

/-- `envLookup` returns the value of a leading well-formed entry. -/
theorem envLookup_first (key v : String) (l₂ : List String)
    (hsp : splitOnEq (key ++ "=" ++ v) = [key, v]) :
    envLookup key ((key ++ "=" ++ v) :: l₂) = v := by
  simp [envLookup, hsp]

/-- `envLookup` returns the empty string when no entry matches. -/
theorem envLookup_none (key : String) (l : List String)
    (h : ∀ e ∈ l, ∀ v, splitOnEq e = [key, v] → False) :
    envLookup key l = "" := by
  have := envLookup_skip key l [] h
  simpa using this

end Imgutil

/-! ## Claim theorems -/

namespace Imgutil

/-- C8: for every image constructed without a previous-image reference,
`ReuseLayer(diffID)` fails with the "no previous image provided" error for
every `diffID`, and the receiver is left unchanged by the failed call. -/
theorem reuseLayer_no_previous_image (i : CNBImageCore) (diffID : String)
    (h : i.previousImage = none) :
    ReuseLayer i diffID =
      { state := i
        err := some "failed to reuse layer because no previous image was provided" } := by
  unfold ReuseLayer
  rw [h]

/-- Witness for C8 at a concrete session without a previous image. -/
theorem reuseLayer_no_previous_image_witness :
    ReuseLayer Fixtures.c8core "sha256:aaa" =
      { state := Fixtures.c8core
        err := some "failed to reuse layer because no previous image was provided" } :=
  reuseLayer_no_previous_image Fixtures.c8core "sha256:aaa" rfl

/-- C5: every mutation through `MutateConfigFile` (and hence every structured
setter expressed with it) leaves the manifest's platform descriptor agreeing
with the config document on OS, architecture, variant, OS version and OS
features, creating the platform descriptor when absent; when the config
document is absent the operation fails with the missing-config error. -/
theorem mutateConfigFile_mirrors_platform (i : CNBImageCore)
    (f : ConfigFile → ConfigFile) :
    (∀ img, i.image = some img → img.configFile = none →
      MutateConfigFile i f = { state := i, err := some "missing config file" }) ∧
    (∀ i₁, MutateConfigFile i f = { state := i₁, err := none } →
      ∃ img c m p, i₁.image = some img ∧ img.configFile = some c ∧
        img.manifest = some m ∧ m.config.platform = some p ∧
        p.os = c.os ∧ p.architecture = c.architecture ∧ p.variant = c.variant ∧
        p.osVersion = c.osVersion ∧ p.osFeatures = c.osFeatures) := by
  constructor
  · intro img hi hc
    simp [MutateConfigFile, hi, hc]
  · intro i₁ h₁
    cases hi : i.image with
    | none => simp [MutateConfigFile, hi] at h₁
    | some img =>
      cases hc : img.configFile with
      | none => simp [MutateConfigFile, hi, hc] at h₁
      | some c =>
        cases hm : img.manifest with
        | none =>
          simp [MutateConfigFile, hi, hc, MutateManifest, mutateConfigFileExt, hm] at h₁
        | some m =>
          rw [mutateConfigFile_ok i img c m f hi hc hm] at h₁
          have h1 : i₁ = { i with image := some { img with
              configFile := some (f c)
              manifest := some (mirrorPlatform (f c) m) } } :=
            (congrArg OpResult.state h₁).symm
          subst h1
          exact ⟨_, _, _, _, rfl, rfl, rfl, rfl, rfl, rfl, rfl, rfl, rfl⟩

/-- Witness for C5: a concrete mutation that sets the OS on an image whose
manifest starts without a platform descriptor, and a concrete failure on an
image without a config document. -/
theorem mutateConfigFile_mirrors_platform_witness :
    (∃ img c m p,
      (MutateConfigFile Fixtures.c8core fun c => { c with os := "newos" }).state.image = some img ∧
      img.configFile = some c ∧ img.manifest = some m ∧
      m.config.platform = some p ∧
      p.os = c.os ∧ p.architecture = c.architecture ∧ p.variant = c.variant ∧
      p.osVersion = c.osVersion ∧ p.osFeatures = c.osFeatures) ∧
    MutateConfigFile Fixtures.noCfgCore (fun c => { c with os := "newos" }) =
      { state := Fixtures.noCfgCore, err := some "missing config file" } := by
  constructor
  · obtain ⟨img, c, m, p, h⟩ :=
      (mutateConfigFile_mirrors_platform Fixtures.c8core
        (fun c => { c with os := "newos" })).2
        (MutateConfigFile Fixtures.c8core fun c => { c with os := "newos" }).state rfl
    exact ⟨img, c, m, p, h⟩
  · exact (mutateConfigFile_mirrors_platform Fixtures.noCfgCore
      (fun c => { c with os := "newos" })).1 Fixtures.noCfgImg rfl rfl

/-- C9, counterexample: on an image whose config OS is `windows`, `Env`
misses the entry `foo=bar` when queried with `FOO` (the claim's
case-insensitive comparison would return `bar`), while the exact-case query
finds it. -/
theorem env_windows_case_counterexample :
    Fixtures.c9cfg.os = "windows" ∧
    Env Fixtures.c9core "FOO" = .ok "" ∧
    Env Fixtures.c9core "foo" = .ok "bar" ∧
    ("" : String) ≠ "bar" :=
  ⟨rfl, rfl, rfl, by decide⟩

/-- C9 (amended): `Env(key)` compares environment keys with plain string
equality regardless of the config OS (`windows` included), considering only
entries that split into exactly two parts on `=`; it returns the value of the
first matching entry, and the empty string without error when no entry
matches. -/
theorem env_first_match_case_sensitive (i : CNBImageCore) (img : V1Image)
    (c : ConfigFile) (key : String)
    (hi : i.image = some img) (hc : img.configFile = some c) :
    (∀ l₁ v l₂, c.config.env = l₁ ++ (key ++ "=" ++ v) :: l₂ →
      splitOnEq (key ++ "=" ++ v) = [key, v] →
      (∀ e ∈ l₁, ∀ v', splitOnEq e = [key, v'] → False) →
      Env i key = .ok v) ∧
    ((∀ e ∈ c.config.env, ∀ v', splitOnEq e = [key, v'] → False) →
      Env i key = .ok "") := by
  have hE : Env i key = .ok (envLookup key c.config.env) := by
    simp only [Env, getConfigFile, hi, hc]
  constructor
  · intro l₁ v l₂ henv hsp hno
    rw [hE, henv, envLookup_skip key l₁ _ hno, envLookup_first key v l₂ hsp]
  · intro hno
    rw [hE, envLookup_none key _ hno]

/-- Witness for C9 at the concrete Windows image: the exact-case query
returns the first match, the wrong-case query returns the empty string. -/
theorem env_first_match_case_sensitive_witness :
    Env Fixtures.c9core "foo" = .ok "bar" ∧
    Env Fixtures.c9core "FOO" = .ok "" := by
  constructor
  · exact (env_first_match_case_sensitive Fixtures.c9core _ Fixtures.c9cfg "foo"
      rfl rfl).1 [] "bar" [] rfl rfl (by simp)
  · refine (env_first_match_case_sensitive Fixtures.c9core _ Fixtures.c9cfg "FOO"
      rfl rfl).2 ?_
    intro e he v' hsp
    have he' : e ∈ ["foo=bar"] := he
    have he2 : e = "foo=bar" := List.mem_singleton.mp he'
    subst he2
    have hsp' : (["foo", "bar"] : List String) = ["FOO", v'] := hsp
    injection hsp' with h1 _
    exact absurd h1 (by decide)

end Imgutil

namespace Layout

/-- C10: `imageFromIndex` fails on an empty manifest list; selects the single
manifest of a one-entry list without consulting the requested platform; and
fails with the platform-mismatch error on every list of two or more
manifests, regardless of whether one of them matches the platform. -/
theorem imageFromIndex_single_or_error (manifestList : List IndexDescriptor)
    (platform : PlatformRequest) :
    (manifestList = [] →
      imageFromIndex manifestList platform =
        .error "failed to find manifest at index") ∧
    (∀ m, manifestList = [m] →
      imageFromIndex manifestList platform = .ok m.digest) ∧
    (2 ≤ manifestList.length →
      imageFromIndex manifestList platform =
        .error "failed to find manifest matching platform") := by
  refine ⟨fun h => by subst h; rfl, fun m h => by subst h; rfl, fun h => ?_⟩
  match manifestList with
  | [] => simp at h
  | [m] => simp at h
  | a :: b :: rest => rfl

/-- Witness for C10: the two-entry list errors even though its second entry
matches the requested platform exactly; the one-entry list is selected with
no platform check; the empty list errors. -/
theorem imageFromIndex_single_or_error_witness :
    imageFromIndex [Fixtures.d1, Fixtures.d2] Fixtures.preq =
      .error "failed to find manifest matching platform" ∧
    Fixtures.d2.platform.os = Fixtures.preq.os ∧
    Fixtures.d2.platform.architecture = Fixtures.preq.architecture ∧
    imageFromIndex [Fixtures.d2] Fixtures.preq = .ok "sha256:m2" ∧
    imageFromIndex [] Fixtures.preq = .error "failed to find manifest at index" :=
  ⟨(imageFromIndex_single_or_error [Fixtures.d1, Fixtures.d2] Fixtures.preq).2.2
      (by decide),
   by decide, by decide,
   (imageFromIndex_single_or_error [Fixtures.d2] Fixtures.preq).2.1 Fixtures.d2 rfl,
   (imageFromIndex_single_or_error [] Fixtures.preq).1 rfl⟩

/-- When every destination's index initialization succeeds, the save loop
visits every destination: the writes are exactly the successful appends, the
diagnostics are exactly the failed appends in order (each carrying the
image's name), and the aggregate error is raised iff a diagnostic exists. -/
theorem saveLoop_all_init_ok (imageName : String) (env : SaveEnv)
    (paths written : List String) (diags : List SaveDiagnostic)
    (hinit : ∀ p ∈ paths, env.initIndex p = .ok ()) :
    saveLoop imageName env paths written diags =
      { written := written ++ paths.filter (appendOk env)
        diagnostics := diags ++ paths.filterMap (appendDiag imageName env)
        result :=
          if (diags ++ paths.filterMap (appendDiag imageName env)).length > 0 then
            some (saveErrorString (diags ++ paths.filterMap (appendDiag imageName env)))
          else none } := by
  revert hinit
  induction paths generalizing written diags with
  | nil =>
    intro hinit
    simp [saveLoop]
  | cons p rest ih =>
    intro hinit
    have hp := hinit p (List.mem_cons_self p rest)
    have hrest : ∀ q ∈ rest, env.initIndex q = .ok () :=
      fun q hq => hinit q (List.mem_cons_of_mem p hq)
    cases ha : env.appendImage p with
    | error cause =>
      simp only [saveLoop, hp, ha]
      rw [ih _ _ hrest]
      simp [appendOk, appendDiag, ha, List.append_assoc]
    | ok u =>
      simp only [saveLoop, hp, ha]
      rw [ih _ _ hrest]
      simp [appendOk, appendDiag, ha, List.append_assoc]

/-- C2, counterexample: with destinations `a`, `b`, `c` where only `b` fails
to append, the recorded diagnostic and the aggregate error carry the image's
name `img0`, not the failed destination `b`; and when initializing `b`'s
layout path fails, the batch aborts — `c` is never attempted and no
diagnostic is recorded. -/
theorem saveAs_diagnostic_counterexample :
    SaveAs "img0" Fixtures.c2env "a" ["b", "c"] =
      { written := ["a", "c"]
        diagnostics := [{ imageName := "img0", cause := "boom" }]
        result := some "failed to write image to the following tags: [img0: boom]" } ∧
    ("img0" : String) ≠ "b" ∧
    SaveAs "img0" Fixtures.c2envInit "a" ["b", "c"] =
      { written := ["a"], diagnostics := [], result := some "init boom" } :=
  ⟨rfl, by decide, rfl⟩

/-- C2 (amended): when every destination's layout-path initialization
succeeds, each `AppendImage` failure is recorded as a diagnostic carrying the
image's configured name (not the destination) and its cause, the remaining
destinations are still attempted, the successful destinations are
materialized, and the call returns an aggregate `SaveError` (one entry per
failed append) exactly when some append failed. A failing initialization,
by contrast, aborts the batch with that error alone. -/
theorem saveAs_batch_behavior (imageName : String) (env : SaveEnv)
    (name : String) (additionalNames : List String)
    (hinit : ∀ p ∈ name :: additionalNames, env.initIndex p = .ok ()) :
    SaveAs imageName env name additionalNames =
      { written := (name :: additionalNames).filter (appendOk env)
        diagnostics := (name :: additionalNames).filterMap (appendDiag imageName env)
        result :=
          if ((name :: additionalNames).filterMap (appendDiag imageName env)).length > 0 then
            some (saveErrorString
              ((name :: additionalNames).filterMap (appendDiag imageName env)))
          else none } := by
  unfold SaveAs
  simpa using saveLoop_all_init_ok imageName env (name :: additionalNames) [] [] hinit

/-- Witness for C2 at the concrete environment where only `b` fails. -/
theorem saveAs_batch_behavior_witness :
    SaveAs "img0" Fixtures.c2env "a" ["b", "c"] =
      { written := ["a", "c"]
        diagnostics := [{ imageName := "img0", cause := "boom" }]
        result := some "failed to write image to the following tags: [img0: boom]" } := by
  rw [saveAs_batch_behavior "img0" Fixtures.c2env "a" ["b", "c"]
    (fun p _ => rfl)]
  rfl

end Layout

namespace Imgutil

/-- C3, counterexample: with history preservation disabled and a session
build timestamp different from the normalized sentinel, the history entry
appended by `AddLayerWithHistory` is stamped with the build timestamp, not
with the empty-marker (sentinel) timestamp the claim requires. -/
theorem addLayer_disabled_not_sentinel_counterexample :
    Fixtures.c3core.preserveHistory = false ∧
    (AddLayerWithHistory Fixtures.c3core "sha256:l1" Fixtures.callerHist).err = none ∧
    lastHistory (AddLayerWithHistory Fixtures.c3core "sha256:l1" Fixtures.callerHist).state
      = some { emptyHistory with created := 42 } ∧
    Fixtures.c3core.createdAt = 42 ∧
    (42 : Int) ≠ NormalizedDateTime :=
  ⟨rfl, rfl, rfl, rfl, by decide⟩

/-- C3 (amended): after every successful `AddLayerWithHistory` call the
config's history list and diff-ID list have equal length, and the last
history entry's creation timestamp equals the session build timestamp in
both history-preservation modes (the rest of the entry is the caller's when
preservation is enabled and the empty marker otherwise). -/
theorem addLayer_history_length_and_stamp (i : CNBImageCore) (img : V1Image)
    (c : ConfigFile) (m : Manifest) (layer : String) (history : History)
    (hi : i.image = some img) (hc : img.configFile = some c)
    (hm : img.manifest = some m) :
    ∃ i₁ img₁ c₁,
      AddLayerWithHistory i layer history = { state := i₁, err := none } ∧
      i₁.image = some img₁ ∧ img₁.configFile = some c₁ ∧
      c₁.history.length = c₁.diffIDs.length ∧
      c₁.history.getLast? =
        some { (if i.preserveHistory then history else emptyHistory) with
               created := i.createdAt } := by
  have hmc := mutateConfigFile_ok i img c m
    (fun c => { c with history := NormalizedHistory c.history c.diffIDs.length })
    hi hc hm
  simp only [AddLayerWithHistory, hmc, mutateAppend]
  refine ⟨_, _, _, rfl, rfl, rfl, ?_, ?_⟩
  · simp [normalizedHistory_length]
  · rw [List.getLast?_concat]
    cases hP : i.preserveHistory <;> simp [hP]

/-- Witness for C3 at a session with preservation disabled: the appended
entry is the empty marker re-stamped with the build timestamp `42`. -/
theorem addLayer_history_length_and_stamp_witness :
    ∃ i₁ img₁ c₁,
      AddLayerWithHistory Fixtures.c3core "sha256:l1" Fixtures.callerHist =
        { state := i₁, err := none } ∧
      i₁.image = some img₁ ∧ img₁.configFile = some c₁ ∧
      c₁.history.length = c₁.diffIDs.length ∧
      c₁.history.getLast? = some { emptyHistory with created := 42 } :=
  addLayer_history_length_and_stamp Fixtures.c3core Fixtures.baseImg
    Fixtures.baseCfg Fixtures.baseMfst "sha256:l1" Fixtures.callerHist rfl rfl rfl

/-- C4: evaluation of `ReuseLayer` at the failing inputs. The previous image
of `c4core` has one diff ID and the raw history `[oldStep, newStep]`; its
history normalized to the diff-ID count is `[newStep]`, so the claim (and
spec §4.4) require the reused entry to derive from `newStep` — but the code
reads the *raw* list at the index and appends `oldStep` re-stamped. On
`c4coreShort`, whose previous image has two diff IDs and a one-entry raw
history, the normalized bounds check passes while the raw read is out of
range: a Go runtime panic. -/
theorem reuseLayer_reads_raw_history :
    (ReuseLayer Fixtures.c4core "sha256:a").err = none ∧
    lastHistory (ReuseLayer Fixtures.c4core "sha256:a").state =
      some { Fixtures.oldStep with created := 42 } ∧
    NormalizedHistory Fixtures.c4prevCfg.history Fixtures.c4prevCfg.diffIDs.length
      = [Fixtures.newStep] ∧
    Fixtures.oldStep.createdBy ≠ Fixtures.newStep.createdBy ∧
    (ReuseLayer Fixtures.c4coreShort "sha256:b").err =
      some "failed to get history for previous image layer: panic: runtime error: index out of range" :=
  ⟨rfl, rfl, rfl, by decide, rfl⟩

/-- C6, counterexample: `Rebase` with a top-layer diff ID absent from the
image fails with the layer-not-found error, but does not leave the image
unmutated — the failed multiple assignment clears the wrapped image to nil,
so the observable wrapped image value afterwards differs from the one before
the call. -/
theorem rebase_missing_top_counterexample :
    Rebase Fixtures.c6core "sha256:zzz" Fixtures.newBaseImg =
      { state := { Fixtures.c6core with image := none }
        err := some "could not find base layer in image" } ∧
    ({ Fixtures.c6core with image := none } : CNBImageCore) ≠ Fixtures.c6core :=
  ⟨rfl, by decide⟩

/-- C6 (amended): for every image and every diff ID absent from its layers,
`Rebase` fails with the "could not find base layer in image" error, and the
wrapped image is overwritten with the nil result of the failed splice (it
does not retain its pre-call value). -/
theorem rebase_missing_top_errors (i : CNBImageCore) (img : V1Image)
    (topID : String) (newBase : V1Image)
    (hi : i.image = some img) (hmem : topID ∉ img.layers) :
    Rebase i topID newBase =
      { state := { i with image := none }
        err := some "could not find base layer in image" } := by
  simp only [Rebase, hi, mutateRebase, facadeLayers_not_mem img.layers topID hmem]

/-- Witness for C6 at the concrete one-layer image and an absent diff ID. -/
theorem rebase_missing_top_errors_witness :
    Rebase Fixtures.c6core "sha256:zzz" Fixtures.newBaseImg =
      { state := { Fixtures.c6core with image := none }
        err := some "could not find base layer in image" } :=
  rebase_missing_top_errors Fixtures.c6core Fixtures.c6img "sha256:zzz"
    Fixtures.newBaseImg rfl (by decide)

/-- When the top diff ID occurs in the original's layers, the modelled
`mutate.Rebase` splices the new base's layers under the original's suffix. -/
theorem mutateRebase_of_mem (orig : V1Image) (topID : String)
    (newBase : V1Image) (origConfig newConfig : ConfigFile)
    (hmem : topID ∈ orig.layers)
    (hoc : orig.configFile = some origConfig)
    (hnc : newBase.configFile = some newConfig) :
    mutateRebase orig topID newBase =
      .ok { layers := newBase.layers ++
              orig.layers.drop (idxOfTop topID orig.layers + 1)
            configFile := some { origConfig with
              architecture := newConfig.architecture
              os := newConfig.os
              osVersion := newConfig.osVersion
              history := newConfig.history ++
                origConfig.history.drop (idxOfTop topID orig.layers + 1)
              diffIDs := newBase.layers ++
                orig.layers.drop (idxOfTop topID orig.layers + 1) }
            manifest := some { config := { platform := none } } } := by
  have hk : idxOfTop topID orig.layers + 1 ≤ orig.layers.length :=
    idxOfTop_lt_length orig.layers topID hmem
  have hlen : (orig.layers.take (idxOfTop topID orig.layers + 1)).length =
      idxOfTop topID orig.layers + 1 := by
    simp only [List.length_take]
    omega
  simp only [mutateRebase, facadeLayers_mem orig.layers topID hmem, hlen,
    hoc, hnc]
  rw [if_neg (by omega), if_neg (by simp)]

/-- C1: for every image and every layer diff ID `topID` present in it,
`Rebase(topID, newBase)` keeps the layers strictly after the (first
occurrence of) `topID` with the same diff IDs in the same relative order,
replaces the layers at/before `topID` by `newBase`'s layers, and overwrites
the config's architecture, OS and OS version with `newBase`'s config values
while the variant is unchanged. -/
theorem rebase_splices_layers_and_config (i : CNBImageCore) (img : V1Image)
    (cfg : ConfigFile) (topID : String) (newBase : V1Image)
    (newCfg : ConfigFile)
    (hi : i.image = some img) (hc : img.configFile = some cfg)
    (hmem : topID ∈ img.layers) (hnc : newBase.configFile = some newCfg) :
    ∃ i₁ img₁ cfg₁,
      Rebase i topID newBase = { state := i₁, err := none } ∧
      i₁.image = some img₁ ∧ img₁.configFile = some cfg₁ ∧
      img₁.layers =
        newBase.layers ++ img.layers.drop (idxOfTop topID img.layers + 1) ∧
      cfg₁.diffIDs = img₁.layers ∧
      cfg₁.architecture = newCfg.architecture ∧ cfg₁.os = newCfg.os ∧
      cfg₁.osVersion = newCfg.osVersion ∧ cfg₁.variant = cfg.variant := by
  have hmr := mutateRebase_of_mem img topID newBase cfg newCfg hmem hc hnc
  have hg : getConfigFile (some newBase) = .ok newCfg := by
    simp [getConfigFile, hnc]
  simp only [Rebase, hi, hmr, hg]
  rw [mutateConfigFile_ok _ _ _ _ _ rfl rfl rfl]
  exact ⟨_, _, _, rfl, rfl, rfl, rfl, rfl, rfl, rfl, rfl, rfl⟩

/-- Witness for C1: rebasing the three-layer image at its middle layer onto
the two-layer new base keeps the top layer, adopts the new base's
architecture/OS/OS-version, and keeps the old variant. -/
theorem rebase_splices_layers_and_config_witness :
    ∃ i₁ img₁ cfg₁,
      Rebase Fixtures.c1core "sha256:b" Fixtures.newBaseImg =
        { state := i₁, err := none } ∧
      i₁.image = some img₁ ∧ img₁.configFile = some cfg₁ ∧
      img₁.layers = ["sha256:x", "sha256:y", "sha256:c"] ∧
      cfg₁.diffIDs = img₁.layers ∧
      cfg₁.architecture = "arm64" ∧ cfg₁.os = "linux-nb" ∧
      cfg₁.osVersion = "99" ∧ cfg₁.variant = "v8" :=
  rebase_splices_layers_and_config Fixtures.c1core Fixtures.c1img
    (Fixtures.c1img.configFile.getD Fixtures.baseCfg) "sha256:b"
    Fixtures.newBaseImg
    (Fixtures.newBaseImg.configFile.getD Fixtures.baseCfg)
    rfl rfl (by decide) rfl

/-- A key always matches itself under the scan's comparison. -/
theorem keysMatch_self (ic : Bool) (k : String) : keysMatch ic k k = true := by
  cases ic <;> simp [keysMatch]

/-- When no entry's key matches, the `SetEnv` scan appends the new entry. -/
theorem setEnvList_no_match (ic : Bool) (key val : String) (env : List String)
    (h : ∀ e ∈ env, keysMatch ic (envKey e) key = false) :
    setEnvList ic key val env = env ++ [key ++ "=" ++ val] := by
  induction env with
  | nil => rfl
  | cons e rest ih =>
    have he := h e (List.mem_cons_self e rest)
    simp only [setEnvList, he, List.cons_append, Bool.false_eq_true, if_false]
    rw [ih fun q hq => h q (List.mem_cons_of_mem e hq)]

/-- The `SetEnv` scan replaces the first matching entry in place. -/
theorem setEnvList_first_match (ic : Bool) (key val : String)
    (l₁ : List String) (e : String) (l₂ : List String)
    (h₁ : ∀ q ∈ l₁, keysMatch ic (envKey q) key = false)
    (he : keysMatch ic (envKey e) key = true) :
    setEnvList ic key val (l₁ ++ e :: l₂) = l₁ ++ (key ++ "=" ++ val) :: l₂ := by
  induction l₁ with
  | nil => simp [setEnvList, he]
  | cons q l ih =>
    have hq := h₁ q (List.mem_cons_self q l)
    simp only [List.cons_append, setEnvList, hq, Bool.false_eq_true, if_false]
    exact congrArg (fun t => q :: t)
      (ih fun r hr => h₁ r (List.mem_cons_of_mem q hr))

/-- Setting the same key twice leaves exactly one matching entry, `key=v2`,
provided the starting environment holds at most one matching entry and the
key survives the `key=value` round trip. -/
theorem setEnvList_twice (ic : Bool) (key v1 v2 : String) (env : List String)
    (hk1 : envKey (key ++ "=" ++ v1) = key)
    (hk2 : envKey (key ++ "=" ++ v2) = key)
    (hfil : (env.filter fun e => keysMatch ic (envKey e) key).length ≤ 1) :
    (setEnvList ic key v2 (setEnvList ic key v1 env)).filter
      (fun e => keysMatch ic (envKey e) key) = [key ++ "=" ++ v2] := by
  induction env with
  | nil => simp [setEnvList, hk1, hk2, keysMatch_self]
  | cons e rest ih =>
    by_cases hpe : keysMatch ic (envKey e) key = true
    · rw [List.filter_cons_of_pos (by simpa using hpe)] at hfil
      have hfr : (rest.filter fun e => keysMatch ic (envKey e) key) = [] := by
        rw [← List.length_eq_zero]
        simpa using hfil
      have hm1 : keysMatch ic (envKey (key ++ "=" ++ v1)) key = true := by
        rw [hk1]
        exact keysMatch_self ic key
      have hm2 : keysMatch ic (envKey (key ++ "=" ++ v2)) key = true := by
        rw [hk2]
        exact keysMatch_self ic key
      simp only [setEnvList, hpe, if_true, hm1]
      rw [List.filter_cons_of_pos (by simpa using hm2), hfr]
    · have hpe' : keysMatch ic (envKey e) key = false := by
        simpa using hpe
      rw [List.filter_cons_of_neg (by simpa using hpe')] at hfil
      simp only [setEnvList, hpe', Bool.false_eq_true, if_false]
      rw [List.filter_cons_of_neg (by simpa using hpe')]
      exact ih hfil

/-- C7, counterexample: on an image whose environment already holds two
entries under the key `K`, calling `SetEnv("K","v1")` and then
`SetEnv("K","v2")` leaves two entries for `K` (`K=v2` and the untouched
`K=b`), not exactly one. -/
theorem setEnv_twice_duplicate_counterexample :
    (SetEnv Fixtures.c7core "K" "v1").err = none ∧
    (SetEnv (SetEnv Fixtures.c7core "K" "v1").state "K" "v2").err = none ∧
    currentEnv (SetEnv (SetEnv Fixtures.c7core "K" "v1").state "K" "v2").state
      = ["K=v2", "K=b"] ∧
    ((currentEnv (SetEnv (SetEnv Fixtures.c7core "K" "v1").state "K" "v2").state).filter
      fun e => envKey e == "K") = ["K=v2", "K=b"] ∧
    (["K=v2", "K=b"] : List String).length = 2 :=
  ⟨rfl, rfl, rfl, rfl, rfl⟩

/-- C7 (amended): when the image's environment initially holds at most one
entry whose key part matches `K` under the scan's comparison, and `K`
round-trips as the key of a `K=value` entry (e.g. it contains no `=`),
`SetEnv(K,v1)` followed by `SetEnv(K,v2)` succeeds and leaves exactly one
matching entry, namely `K=v2`; in general the scan replaces the first
matching entry in place (case-insensitively when the config OS is
`windows`) and appends a new entry otherwise. -/
theorem setEnv_twice_single_entry (i : CNBImageCore) (img : V1Image)
    (c : ConfigFile) (m : Manifest) (key v1 v2 : String)
    (hi : i.image = some img) (hc : img.configFile = some c)
    (hm : img.manifest = some m)
    (hk1 : envKey (key ++ "=" ++ v1) = key)
    (hk2 : envKey (key ++ "=" ++ v2) = key)
    (hfil : (c.config.env.filter fun e =>
        keysMatch (c.os == "windows") (envKey e) key).length ≤ 1) :
    ∃ i₁ i₂ img₂ c₂,
      SetEnv i key v1 = { state := i₁, err := none } ∧
      SetEnv i₁ key v2 = { state := i₂, err := none } ∧
      i₂.image = some img₂ ∧ img₂.configFile = some c₂ ∧
      c₂.config.env.filter
        (fun e => keysMatch (c.os == "windows") (envKey e) key)
        = [key ++ "=" ++ v2] := by
  refine ⟨_, _, _, _,
    mutateConfigFile_ok i img c m _ hi hc hm,
    mutateConfigFile_ok _ _ _ _ _ rfl rfl rfl,
    rfl, rfl, ?_⟩
  exact setEnvList_twice (c.os == "windows") key v1 v2 c.config.env hk1 hk2 hfil

/-- Witness for C7 at an image with one `K` entry (and one unrelated entry). -/
theorem setEnv_twice_single_entry_witness :
    ∃ i₁ i₂ img₂ c₂,
      SetEnv Fixtures.c7cleanCore "K" "v1" = { state := i₁, err := none } ∧
      SetEnv i₁ "K" "v2" = { state := i₂, err := none } ∧
      i₂.image = some img₂ ∧ img₂.configFile = some c₂ ∧
      c₂.config.env.filter
        (fun e => keysMatch false (envKey e) "K") = ["K=v2"] :=
  setEnv_twice_single_entry Fixtures.c7cleanCore
    (Fixtures.c7cleanCore.image.getD default)
    Fixtures.c7cleanCfg Fixtures.baseMfst "K" "v1" "v2"
    rfl rfl rfl rfl rfl (by decide)

end Imgutil
